import Mathlib

/-!
Verification of the parametric giraffe-model generator
(src/src/app.component.ts) against its design specification.

The geometry pipeline is embedded shallowly: every primitive pushed into
the structural or pattern group by createGiraffe becomes a Lean value
recording its shape parameters and the sequence of baked transform
operations, in source order.  Machine floats are modelled as rationals;
Math.sin and Math.cos are abstracted as functions applied to the angle
expressed in multiples of pi (the source only ever evaluates them at
rational multiples of pi); Math.random is abstracted as a stream of
rationals indexed by call order.
-/

namespace Plushie

/-- A 3D vector of rational coordinates. -/
abbrev V3 := ℚ × ℚ × ℚ

/-- Shape descriptors, mirroring the THREE geometry constructors used by
createGiraffe: BoxGeometry, CylinderGeometry, SphereGeometry. -/
inductive Shape
  | box (width height depth : ℚ)
  | cylinder (radiusTop radiusBottom height : ℚ)
  | sphere (radius : ℚ) (widthSegments heightSegments : ℕ)
  deriving DecidableEq, Repr

/-- Baked transform operations applied to a geometry at construction time.
Rotation angles are recorded as the coefficient of pi (the source writes
them as Math.PI / 4, Math.PI / 5, and so on). -/
inductive XformOp
  | translate (x y z : ℚ)
  | rotateX (piCoeff : ℚ)
  | rotateY (piCoeff : ℚ)
  deriving DecidableEq, Repr

/-- A primitive: a shape plus its baked transform sequence, in the order
the source applies them. -/
structure Primitive where
  shape : Shape
  ops : List XformOp
  deriving DecidableEq, Repr

/-- An eye mesh: SphereGeometry plus a mesh position (the eyes are kept as
separate meshes rather than merged, exactly as in the source). -/
structure EyeMesh where
  radius : ℚ
  widthSegments : ℕ
  heightSegments : ℕ
  position : V3
  deriving DecidableEq, Repr

/-- The generated model: the two primitive groups (structural body group
and pattern/spot group, in push order), the two eye meshes, and the root
group's vertical translation (giraffe.position.y). -/
structure Model where
  structural : List Primitive
  pattern : List Primitive
  eyes : List EyeMesh
  rootY : ℚ
  deriving DecidableEq, Repr

/-- The fixed catalog of body-spot positions on the two z-normal (front
and back) faces of the body box, from the first spot loop. -/
def bodySpotCatalogZ : List V3 :=
  [(1, 1, 5/2), (-(6/5), 1/2, 5/2), (1/2, -1, 5/2),
   (1, 1, -(5/2)), (-(6/5), 1/2, -(5/2)), (1/2, -1, -(5/2))]

/-- The fixed catalog of body-spot positions on the two x-normal (side)
faces of the body box, from the second spot loop. -/
def bodySpotCatalogX : List V3 :=
  [(3/2, 1, 9/5), (3/2, -(1/2), 0), (3/2, 4/5, -(3/2)),
   (-(3/2), 1, 9/5), (-(3/2), -(1/2), 0), (-(3/2), 4/5, -(3/2))]

/-- A front/back body spot: BoxGeometry(0.5 + w*0.4, 0.5 + h*0.4, 0.1)
translated to its catalog position; w and h are Math.random() draws. -/
def zFaceSpot (w h : ℚ) (pos : V3) : Primitive :=
  { shape := Shape.box (1/2 + w * (2/5)) (1/2 + h * (2/5)) (1/10),
    ops := [XformOp.translate pos.1 pos.2.1 pos.2.2] }

/-- A side body spot: BoxGeometry(0.1, 0.5 + h*0.4, 0.5 + d*0.4)
translated to its catalog position; h and d are Math.random() draws. -/
def xFaceSpot (h d : ℚ) (pos : V3) : Primitive :=
  { shape := Shape.box (1/10) (1/2 + h * (2/5)) (1/2 + d * (2/5)),
    ops := [XformOp.translate pos.1 pos.2.1 pos.2.2] }

/-- The six front/back body spots, unrolled from the source's forEach in
iteration order; rand indices follow the order of Math.random() calls. -/
def bodySpotsZ (rand : ℕ → ℚ) : List Primitive :=
  [zFaceSpot (rand 0) (rand 1) (1, 1, 5/2),
   zFaceSpot (rand 2) (rand 3) (-(6/5), 1/2, 5/2),
   zFaceSpot (rand 4) (rand 5) (1/2, -1, 5/2),
   zFaceSpot (rand 6) (rand 7) (1, 1, -(5/2)),
   zFaceSpot (rand 8) (rand 9) (-(6/5), 1/2, -(5/2)),
   zFaceSpot (rand 10) (rand 11) (1/2, -1, -(5/2))]

/-- The six side body spots, unrolled in iteration order. -/
def bodySpotsX (rand : ℕ → ℚ) : List Primitive :=
  [xFaceSpot (rand 12) (rand 13) (3/2, 1, 9/5),
   xFaceSpot (rand 14) (rand 15) (3/2, -(1/2), 0),
   xFaceSpot (rand 16) (rand 17) (3/2, 4/5, -(3/2)),
   xFaceSpot (rand 18) (rand 19) (-(3/2), 1, 9/5),
   xFaceSpot (rand 20) (rand 21) (-(3/2), -(1/2), 0),
   xFaceSpot (rand 22) (rand 23) (-(3/2), 4/5, -(3/2))]

/-- The neck spot parameter catalog: parametric position p along the neck
and rotation angle (as a coefficient of pi), from the source literal. -/
def neckSpotParams : List (ℚ × ℚ) :=
  [(1/5, 1/5), (9/20, -(1/3)), (7/10, 2/3), (9/10, 1)]

/-- The neck radius at parametric position p, interpolated between the
neck cylinder's bottom radius 0.95 and top radius 0.75 as in the source:
neckRadiusBottom - p * (neckRadiusBottom - neckRadiusTop). -/
def neckRadiusAt (p : ℚ) : ℚ := 19/20 - p * (19/20 - 3/4)

/-- One neck spot: BoxGeometry(0.4 + w*0.3, 0.4 + h*0.3, 0.1), rotated
about Y by the catalog angle, then translated onto the neck surface at
height bodyTopY + p * neckLength. -/
def neckSpot (sinPi cosPi : ℚ → ℚ) (w h neckLength p angle : ℚ) : Primitive :=
  let radius := neckRadiusAt p
  { shape := Shape.box (2/5 + w * (3/10)) (2/5 + h * (3/10)) (1/10),
    ops := [XformOp.rotateY angle,
            XformOp.translate (radius * sinPi angle) (3/2 + p * neckLength)
              (3/2 + radius * cosPi angle)] }

/-- The four neck spots, unrolled in iteration order. -/
def neckSpots (sinPi cosPi : ℚ → ℚ) (rand : ℕ → ℚ) (neckLength : ℚ) :
    List Primitive :=
  [neckSpot sinPi cosPi (rand 24) (rand 25) neckLength (1/5) (1/5),
   neckSpot sinPi cosPi (rand 26) (rand 27) neckLength (9/20) (-(1/3)),
   neckSpot sinPi cosPi (rand 28) (rand 29) neckLength (7/10) (2/3),
   neckSpot sinPi cosPi (rand 30) (rand 31) neckLength (9/10) 1]

/-- Shallow embedding of createGiraffe.  sinPi and cosPi stand for
Math.sin and Math.cos composed with multiplication by pi (every angle in
the source is a rational multiple of Math.PI); rand is the stream of
Math.random() results in call order.  Primitives are listed in the order
the source pushes them into giraffeGeometries and spotGeometries. -/
def createGiraffe (sinPi cosPi : ℚ → ℚ) (rand : ℕ → ℚ)
    (neckLength legLength hornLength headSize : ℚ) : Model :=
  let bodyHeight : ℚ := 3
  let bodyPrim : Primitive := { shape := Shape.box 3 bodyHeight 5, ops := [] }
  -- Legs
  let legY : ℚ := -(bodyHeight / 2) - legLength / 2
  let legPrim : ℚ × ℚ → Primitive := fun pos =>
    { shape := Shape.cylinder (2/5) (3/10) legLength,
      ops := [XformOp.translate pos.1 legY pos.2] }
  -- Tail
  let tailLength : ℚ := 2
  let tailAttachY : ℚ := 1
  let tailAttachZ : ℚ := -(5/2)
  let tailPrim : Primitive :=
    { shape := Shape.cylinder (1/10) (2/25) tailLength,
      ops := [XformOp.translate 0 (-(tailLength / 2)) 0,
              XformOp.rotateX (1/4),
              XformOp.translate 0 tailAttachY tailAttachZ] }
  let tasselSize : ℚ := 2/5
  let tasselY := tailAttachY - tailLength * cosPi (1/4)
  let tasselZ := tailAttachZ - tailLength * sinPi (1/4)
  let tasselPrim : Primitive :=
    { shape := Shape.box tasselSize tasselSize tasselSize,
      ops := [XformOp.translate 0 tasselY tasselZ] }
  -- Neck
  let bodyTopY := bodyHeight / 2
  let neckPrim : Primitive :=
    { shape := Shape.cylinder (3/4) (19/20) neckLength,
      ops := [XformOp.translate 0 (bodyTopY + neckLength / 2) (3/2)] }
  -- Head
  let neckTopY := bodyTopY + neckLength
  let headH := 2 * headSize
  let headD := 5/2 * headSize
  let headCenterY := neckTopY + headH / 2
  let headCenterZ : ℚ := 2
  let headPrim : Primitive :=
    { shape := Shape.box (2 * headSize) headH headD,
      ops := [XformOp.translate 0 headCenterY headCenterZ] }
  -- Snout
  let snoutPrim : Primitive :=
    { shape := Shape.box (3/2 * headSize) (99/100 * headSize) (3/2 * headSize),
      ops := [XformOp.translate 0 (headCenterY - 1/2 * headSize)
                (headCenterZ + headD / 2)] }
  -- Horns
  let hornRadius := 1/5 * headSize
  let headTopY := headCenterY + headH / 2
  let hornY := headTopY + hornLength / 2
  let hornX := 7/10 * headSize
  let hornZ := headCenterZ - 1/2 * headSize
  let hornShape := Shape.cylinder hornRadius hornRadius hornLength
  let horn1 : Primitive := { shape := hornShape, ops := [XformOp.translate hornX hornY hornZ] }
  let horn2 : Primitive := { shape := hornShape, ops := [XformOp.translate (-hornX) hornY hornZ] }
  -- Ears
  let earW := 4/5 * headSize
  let earX := (2 * headSize) / 2 + earW / 2
  let earY := headCenterY + 1/2 * headSize
  let earShape := Shape.box earW (3/5 * headSize) (1/5 * headSize)
  let ear1 : Primitive := { shape := earShape, ops := [XformOp.translate earX earY headCenterZ] }
  let ear2 : Primitive := { shape := earShape, ops := [XformOp.translate (-earX) earY headCenterZ] }
  -- Eyes
  let eyeRadius := 1/5 * headSize
  let eyeX := 7/10 * headSize
  let eyeY := headCenterY + 3/10 * headSize
  let eyeZ := headCenterZ + headD / 2 - eyeRadius / 2
  let eye1 : EyeMesh :=
    { radius := eyeRadius, widthSegments := 16, heightSegments := 16,
      position := (eyeX, eyeY, eyeZ) }
  let eye2 : EyeMesh := { eye1 with position := (-eyeX, eyeY, eyeZ) }
  { structural :=
      [bodyPrim,
       legPrim (6/5, 2), legPrim (-(6/5), 2), legPrim (6/5, -2), legPrim (-(6/5), -2),
       tailPrim, neckPrim, headPrim, ear1, ear2],
    pattern :=
      [tasselPrim, snoutPrim, horn1, horn2]
        ++ bodySpotsZ rand ++ bodySpotsX rand
        ++ neckSpots sinPi cosPi rand neckLength,
    eyes := [eye1, eye2],
    rootY := legLength + bodyHeight / 2 }

/-- The default primitive used by positional accessors. -/
def defaultPrim : Primitive := { shape := Shape.box 0 0 0, ops := [] }

/-- The primitive at a given index of a group (out-of-range yields the
default primitive). -/
def primAt (l : List Primitive) (i : ℕ) : Primitive := l.getD i defaultPrim

/-- The final translation a primitive's transform sequence applies (the
last translate operation; (0,0,0) if there is none). -/
def primPosition (p : Primitive) : V3 :=
  p.ops.foldl
    (fun acc op =>
      match op with
      | XformOp.translate x y z => (x, y, z)
      | _ => acc)
    (0, 0, 0)

/-- The dimension triple of a shape: box width/height/depth, cylinder
top radius/bottom radius/height, sphere radius in each component. -/
def shapeDims : Shape → V3
  | Shape.box w h d => (w, h, d)
  | Shape.cylinder rt rb h => (rt, rb, h)
  | Shape.sphere r _ _ => (r, r, r)

/-- Componentwise difference of vectors. -/
def subV (a b : V3) : V3 := (a.1 - b.1, a.2.1 - b.2.1, a.2.2 - b.2.2)

/-- Scalar multiple of a vector. -/
def scaleV (k : ℚ) (v : V3) : V3 := (k * v.1, k * v.2.1, k * v.2.2)

/-- Scale a shape's dimensions by a factor k. -/
def scaleShape (k : ℚ) : Shape → Shape
  | Shape.box w h d => Shape.box (k * w) (k * h) (k * d)
  | Shape.cylinder rt rb h => Shape.cylinder (k * rt) (k * rb) (k * h)
  | Shape.sphere r ws hs => Shape.sphere (k * r) ws hs

/-- Scale a transform operation about a centre point c by a factor k
(translations move with the scaling; rotations are unchanged). -/
def scaleOpAbout (k : ℚ) (c : V3) : XformOp → XformOp
  | XformOp.translate x y z =>
      XformOp.translate (c.1 + k * (x - c.1)) (c.2.1 + k * (y - c.2.1))
        (c.2.2 + k * (z - c.2.2))
  | op => op

/-- Scale a primitive's dimensions and offsets about a centre point. -/
def scalePrimAbout (k : ℚ) (c : V3) (p : Primitive) : Primitive :=
  { shape := scaleShape k p.shape, ops := p.ops.map (scaleOpAbout k c) }

/-- Scale an eye mesh's radius and position about a centre point. -/
def scaleEyeAbout (k : ℚ) (c : V3) (e : EyeMesh) : EyeMesh :=
  { e with
    radius := k * e.radius,
    position := (c.1 + k * (e.position.1 - c.1), c.2.1 + k * (e.position.2.1 - c.2.1),
                 c.2.2 + k * (e.position.2.2 - c.2.2)) }

/-- The top point of the neck cylinder's axis: height bodyTopY +
neckLength on the neck axis z = 1.5. -/
def neckTopPoint (n : ℚ) : V3 := (0, 3/2 + n, 3/2)

/-- C1 as the spec states it, at one parameter instance: building with
head size h2 yields every head-relative primitive (head, ears from the
structural group; snout and horns from the pattern group; both eyes)
equal to the h1 build scaled by h2/h1 about the neck top, in dimensions
and offsets, while body, legs, tail, neck and tassel are identical. -/
def headScaledUniformly (sinPi cosPi : ℚ → ℚ) (rand : ℕ → ℚ)
    (n l horn h1 h2 : ℚ) : Prop :=
  let m1 := createGiraffe sinPi cosPi rand n l horn h1
  let m2 := createGiraffe sinPi cosPi rand n l horn h2
  let k := h2 / h1
  let c := neckTopPoint n
  m2.structural.drop 7 = (m1.structural.drop 7).map (scalePrimAbout k c) ∧
  (m2.pattern.take 4).drop 1 = ((m1.pattern.take 4).drop 1).map (scalePrimAbout k c) ∧
  m2.eyes = m1.eyes.map (scaleEyeAbout k c) ∧
  m2.structural.take 7 = m1.structural.take 7 ∧
  m2.pattern.take 1 = m1.pattern.take 1

/-- Closed form of the head primitive (structural index 7). -/
theorem createGiraffe_head (sc cc : ℚ → ℚ) (r : ℕ → ℚ) (n l horn h : ℚ) :
    primAt (createGiraffe sc cc r n l horn h).structural 7
      = { shape := Shape.box (2 * h) (2 * h) (5/2 * h),
          ops := [XformOp.translate 0 (3/2 + n + 2 * h / 2) 2] } := rfl

/-- Closed form of the first ear primitive (structural index 8). -/
theorem createGiraffe_ear1 (sc cc : ℚ → ℚ) (r : ℕ → ℚ) (n l horn h : ℚ) :
    primAt (createGiraffe sc cc r n l horn h).structural 8
      = { shape := Shape.box (4/5 * h) (3/5 * h) (1/5 * h),
          ops := [XformOp.translate (2 * h / 2 + 4/5 * h / 2)
                    (3/2 + n + 2 * h / 2 + 1/2 * h) 2] } := rfl

/-- Closed form of the second ear primitive (structural index 9). -/
theorem createGiraffe_ear2 (sc cc : ℚ → ℚ) (r : ℕ → ℚ) (n l horn h : ℚ) :
    primAt (createGiraffe sc cc r n l horn h).structural 9
      = { shape := Shape.box (4/5 * h) (3/5 * h) (1/5 * h),
          ops := [XformOp.translate (-(2 * h / 2 + 4/5 * h / 2))
                    (3/2 + n + 2 * h / 2 + 1/2 * h) 2] } := rfl

/-- Closed form of the snout primitive (pattern index 1). -/
theorem createGiraffe_snout (sc cc : ℚ → ℚ) (r : ℕ → ℚ) (n l horn h : ℚ) :
    primAt (createGiraffe sc cc r n l horn h).pattern 1
      = { shape := Shape.box (3/2 * h) (99/100 * h) (3/2 * h),
          ops := [XformOp.translate 0 (3/2 + n + 2 * h / 2 - 1/2 * h)
                    (2 + 5/2 * h / 2)] } := rfl

/-- Closed form of the first horn primitive (pattern index 2). -/
theorem createGiraffe_horn1 (sc cc : ℚ → ℚ) (r : ℕ → ℚ) (n l horn h : ℚ) :
    primAt (createGiraffe sc cc r n l horn h).pattern 2
      = { shape := Shape.cylinder (1/5 * h) (1/5 * h) horn,
          ops := [XformOp.translate (7/10 * h)
                    (3/2 + n + 2 * h / 2 + 2 * h / 2 + horn / 2)
                    (2 - 1/2 * h)] } := rfl

/-- Closed form of the second horn primitive (pattern index 3). -/
theorem createGiraffe_horn2 (sc cc : ℚ → ℚ) (r : ℕ → ℚ) (n l horn h : ℚ) :
    primAt (createGiraffe sc cc r n l horn h).pattern 3
      = { shape := Shape.cylinder (1/5 * h) (1/5 * h) horn,
          ops := [XformOp.translate (-(7/10 * h))
                    (3/2 + n + 2 * h / 2 + 2 * h / 2 + horn / 2)
                    (2 - 1/2 * h)] } := rfl

/-- Closed form of the eye meshes. -/
theorem createGiraffe_eyes (sc cc : ℚ → ℚ) (r : ℕ → ℚ) (n l horn h : ℚ) :
    (createGiraffe sc cc r n l horn h).eyes
      = [{ radius := 1/5 * h, widthSegments := 16, heightSegments := 16,
           position := (7/10 * h, 3/2 + n + 2 * h / 2 + 3/10 * h,
                        2 + 5/2 * h / 2 - 1/5 * h / 2) },
         { radius := 1/5 * h, widthSegments := 16, heightSegments := 16,
           position := (-(7/10 * h), 3/2 + n + 2 * h / 2 + 3/10 * h,
                        2 + 5/2 * h / 2 - 1/5 * h / 2) }] := rfl

/-- C1 counterexample: at neckLength 6, legLength 4, hornLength 0.8,
increasing headSize from 1 to 2 does not scale every head-relative
primitive by 2: the horn cylinders keep height hornLength = 0.8 instead
of 1.6.  The claim fails even though 1 < 2. -/
theorem c1_counterexample :
    (1 : ℚ) < 2 ∧
    ¬ headScaledUniformly (fun _ => 0) (fun _ => 0) (fun _ => 0) 6 4 (4/5) 1 2 := by
  refine ⟨by norm_num, fun hcl => ?_⟩
  have hpat := congrArg (fun xs => primAt xs 1) hcl.2.1
  simp only [createGiraffe] at hpat
  norm_num [scalePrimAbout, scaleShape, scaleOpAbout, neckTopPoint, primAt,
    List.take, List.drop, Primitive.mk.injEq, Shape.cylinder.injEq] at hpat

/-- The head centre of a build with neck length n and head size h:
(0, bodyTopY + n + h, 2): the head box is centred h above the neck top
at fixed depth 2. -/
def headCenterPoint (n h : ℚ) : V3 := (0, 3/2 + n + h, 2)

/-- Default eye used by positional accessors. -/
def defaultEye : EyeMesh :=
  { radius := 0, widthSegments := 0, heightSegments := 0, position := (0, 0, 0) }

/-- C1 amended: with all other parameters fixed, going from head size h1
to h2 scales the dimensions of the head, ears and eyes and the horn
radii by k = h2/h1; the snout, ear and eye offsets relative to the head
centre scale by k; the head centre sits k-scaled height above the neck
top at fixed depth 2; the horns keep height hornLength, their x and z
offsets from the head centre scale by k, and their vertical offset from
the head centre is headSize + hornLength/2; body, legs, tail, neck and
tassel are identical in both builds. -/
def c1AmendedScaling (m1 m2 : Model) (n horn h1 h2 : ℚ) : Prop :=
  -- body, legs, tail, neck, tassel: identical
  (m2.structural.take 7 = m1.structural.take 7 ∧
   primAt m2.pattern 0 = primAt m1.pattern 0) ∧
  -- head: dimensions scale; height above neck top scales; depth fixed at 2
  (shapeDims (primAt m2.structural 7).shape
      = scaleV (h2 / h1) (shapeDims (primAt m1.structural 7).shape) ∧
   (primPosition (primAt m2.structural 7)).2.1 - (3/2 + n)
      = (h2 / h1) * ((primPosition (primAt m1.structural 7)).2.1 - (3/2 + n)) ∧
   (primPosition (primAt m2.structural 7)).2.2 = 2 ∧
   (primPosition (primAt m2.structural 7)).1 = 0) ∧
  -- snout: dimensions and head-centre offset scale
  (shapeDims (primAt m2.pattern 1).shape
      = scaleV (h2 / h1) (shapeDims (primAt m1.pattern 1).shape) ∧
   subV (primPosition (primAt m2.pattern 1)) (headCenterPoint n h2)
      = scaleV (h2 / h1)
          (subV (primPosition (primAt m1.pattern 1)) (headCenterPoint n h1))) ∧
  -- ears: dimensions and head-centre offsets scale
  (shapeDims (primAt m2.structural 8).shape
      = scaleV (h2 / h1) (shapeDims (primAt m1.structural 8).shape) ∧
   subV (primPosition (primAt m2.structural 8)) (headCenterPoint n h2)
      = scaleV (h2 / h1)
          (subV (primPosition (primAt m1.structural 8)) (headCenterPoint n h1)) ∧
   shapeDims (primAt m2.structural 9).shape
      = scaleV (h2 / h1) (shapeDims (primAt m1.structural 9).shape) ∧
   subV (primPosition (primAt m2.structural 9)) (headCenterPoint n h2)
      = scaleV (h2 / h1)
          (subV (primPosition (primAt m1.structural 9)) (headCenterPoint n h1))) ∧
  -- eyes: radii and head-centre offsets scale
  (m2.eyes.length = 2 ∧
   (m2.eyes.getD 0 defaultEye).radius = (h2 / h1) * (m1.eyes.getD 0 defaultEye).radius ∧
   subV (m2.eyes.getD 0 defaultEye).position (headCenterPoint n h2)
      = scaleV (h2 / h1)
          (subV (m1.eyes.getD 0 defaultEye).position (headCenterPoint n h1)) ∧
   (m2.eyes.getD 1 defaultEye).radius = (h2 / h1) * (m1.eyes.getD 1 defaultEye).radius ∧
   subV (m2.eyes.getD 1 defaultEye).position (headCenterPoint n h2)
      = scaleV (h2 / h1)
          (subV (m1.eyes.getD 1 defaultEye).position (headCenterPoint n h1))) ∧
  -- horns: radii scale, height stays hornLength; x and z offsets from the
  -- head centre scale; vertical offset from the head centre is
  -- headSize + hornLength / 2
  ((shapeDims (primAt m2.pattern 2).shape).1
      = (h2 / h1) * (shapeDims (primAt m1.pattern 2).shape).1 ∧
   (shapeDims (primAt m2.pattern 2).shape).2.1
      = (h2 / h1) * (shapeDims (primAt m1.pattern 2).shape).2.1 ∧
   (shapeDims (primAt m2.pattern 2).shape).2.2 = horn ∧
   (shapeDims (primAt m1.pattern 2).shape).2.2 = horn ∧
   (subV (primPosition (primAt m2.pattern 2)) (headCenterPoint n h2)).1
      = (h2 / h1) * (subV (primPosition (primAt m1.pattern 2)) (headCenterPoint n h1)).1 ∧
   (subV (primPosition (primAt m2.pattern 2)) (headCenterPoint n h2)).2.2
      = (h2 / h1) * (subV (primPosition (primAt m1.pattern 2)) (headCenterPoint n h1)).2.2 ∧
   (subV (primPosition (primAt m2.pattern 2)) (headCenterPoint n h2)).2.1 = h2 + horn / 2 ∧
   (subV (primPosition (primAt m1.pattern 2)) (headCenterPoint n h1)).2.1 = h1 + horn / 2) ∧
  ((shapeDims (primAt m2.pattern 3).shape).1
      = (h2 / h1) * (shapeDims (primAt m1.pattern 3).shape).1 ∧
   (shapeDims (primAt m2.pattern 3).shape).2.1
      = (h2 / h1) * (shapeDims (primAt m1.pattern 3).shape).2.1 ∧
   (shapeDims (primAt m2.pattern 3).shape).2.2 = horn ∧
   (shapeDims (primAt m1.pattern 3).shape).2.2 = horn ∧
   (subV (primPosition (primAt m2.pattern 3)) (headCenterPoint n h2)).1
      = (h2 / h1) * (subV (primPosition (primAt m1.pattern 3)) (headCenterPoint n h1)).1 ∧
   (subV (primPosition (primAt m2.pattern 3)) (headCenterPoint n h2)).2.2
      = (h2 / h1) * (subV (primPosition (primAt m1.pattern 3)) (headCenterPoint n h1)).2.2 ∧
   (subV (primPosition (primAt m2.pattern 3)) (headCenterPoint n h2)).2.1 = h2 + horn / 2 ∧
   (subV (primPosition (primAt m1.pattern 3)) (headCenterPoint n h1)).2.1 = h1 + horn / 2)

set_option maxHeartbeats 1000000 in
/-- C1 amended, proved: the head-size scaling law that actually holds in
createGiraffe, for all positive h1 < h2 and all other parameters. -/
theorem c1_amended_scaling (sinPi cosPi : ℚ → ℚ) (rand : ℕ → ℚ)
    (n l horn h1 h2 : ℚ) (hpos : 0 < h1) (hlt : h1 < h2) :
    c1AmendedScaling (createGiraffe sinPi cosPi rand n l horn h1)
      (createGiraffe sinPi cosPi rand n l horn h2) n horn h1 h2 := by
  have hne : h1 ≠ 0 := ne_of_gt hpos
  have hlt2 : h1 < h2 := hlt
  unfold c1AmendedScaling
  refine ⟨⟨rfl, rfl⟩, ?_, ?_, ?_, ?_, ?_, ?_⟩
  all_goals simp only [createGiraffe_head, createGiraffe_ear1, createGiraffe_ear2,
    createGiraffe_snout, createGiraffe_horn1, createGiraffe_horn2,
    createGiraffe_eyes]
  all_goals simp [primPosition, shapeDims, subV, scaleV, headCenterPoint,
    Prod.mk.injEq, List.getD]
  all_goals repeat' apply And.intro
  all_goals first
    | trivial
    | (field_simp; try ring)

/-- Witness for the amended C1 at neckLength 6, legLength 4,
hornLength 0.8, h1 = 1, h2 = 2. -/
theorem c1_amended_scaling_witness :
    (0 : ℚ) < 1 ∧ (1 : ℚ) < 2 ∧
    c1AmendedScaling (createGiraffe (fun _ => 0) (fun _ => 0) (fun _ => 0) 6 4 (4/5) 1)
      (createGiraffe (fun _ => 0) (fun _ => 0) (fun _ => 0) 6 4 (4/5) 2) 6 (4/5) 1 2 :=
  ⟨by norm_num, by norm_num,
   c1_amended_scaling (fun _ => 0) (fun _ => 0) (fun _ => 0) 6 4 (4/5) 1 2
     (by norm_num) (by norm_num)⟩

/-- C4: the structural group always has exactly 10 primitives (body, four
legs, tail, neck, head, two ears) and the pattern group exactly 20
(tassel, snout, two horns, twelve body spots, four neck spots), for every
parameter value and every random stream. -/
theorem c4_primitive_counts (sinPi cosPi : ℚ → ℚ) (rand : ℕ → ℚ)
    (n l horn h : ℚ) :
    (createGiraffe sinPi cosPi rand n l horn h).structural.length = 10 ∧
    (createGiraffe sinPi cosPi rand n l horn h).pattern.length = 20 := by
  constructor <;> rfl

/-- C3: with neckLength 6, legLength 4, hornLength 0.8, headSize 1, the
root translation is legLength + bodyHeight/2 = 5.5, and the bottom of
each of the four leg cylinders sits at world height 0 after that
translation. -/
theorem c3_feet_on_ground (sinPi cosPi : ℚ → ℚ) (rand : ℕ → ℚ) :
    (createGiraffe sinPi cosPi rand 6 4 (4/5) 1).rootY = 11/2 ∧
    (((createGiraffe sinPi cosPi rand 6 4 (4/5) 1).structural.drop 1).take 4).map
        (fun p =>
          (createGiraffe sinPi cosPi rand 6 4 (4/5) 1).rootY
            + (primPosition p).2.1 - (shapeDims p.shape).2.2 / 2)
      = [0, 0, 0, 0] := by
  constructor <;> norm_num [createGiraffe, primPosition, shapeDims]

/-- C5 as the spec states it, formalized: among the twelve body-spot
positions (pattern indices 4 to 15), six lie on each lateral (front or
back, z-normal) face and six on each side (x-normal) face of the body
box. -/
def c5BodySpotFaceClaim (m : Model) : Prop :=
  (((m.pattern.drop 4).take 12).map primPosition).countP
      (fun v => decide (v.2.2 = (5/2 : ℚ))) = 6 ∧
  (((m.pattern.drop 4).take 12).map primPosition).countP
      (fun v => decide (v.2.2 = (-(5/2) : ℚ))) = 6 ∧
  (((m.pattern.drop 4).take 12).map primPosition).countP
      (fun v => decide (v.1 = (3/2 : ℚ))) = 6 ∧
  (((m.pattern.drop 4).take 12).map primPosition).countP
      (fun v => decide (v.1 = (-(3/2) : ℚ))) = 6

/-- The body-spot positions of any build are exactly the fixed catalog. -/
theorem createGiraffe_bodySpotPositions (sc cc : ℚ → ℚ) (r : ℕ → ℚ)
    (n l horn h : ℚ) :
    (((createGiraffe sc cc r n l horn h).pattern.drop 4).take 12).map primPosition
      = bodySpotCatalogZ ++ bodySpotCatalogX := rfl

/-- C5 counterexample: in the build at neckLength 6, legLength 4,
hornLength 0.8, headSize 1, the front face z = 2.5 carries only 3 of the
12 catalog positions, not 6: the catalog has 3 spots per face. -/
theorem c5_counterexample :
    ¬ c5BodySpotFaceClaim
        (createGiraffe (fun _ => 0) (fun _ => 0) (fun _ => 0) 6 4 (4/5) 1) := by
  intro hcl
  have h1 := hcl.1
  rw [createGiraffe_bodySpotPositions] at h1
  norm_num [bodySpotCatalogZ, bodySpotCatalogX, List.countP_cons,
    List.countP_nil] at h1

/-- Bounds for a randomized spot dimension lo + x * c with x a
Math.random() draw in [0, 1). -/
theorem rand_dim_within (lo c hi x : ℚ) (h0 : 0 ≤ x) (h1 : x < 1)
    (hc : 0 ≤ c) (hhi : lo + c ≤ hi) :
    lo ≤ lo + x * c ∧ lo + x * c ≤ hi := by
  constructor <;> nlinarith

/-- C5 amended: the pattern group contains twelve body spots at the fixed
catalog positions with 3 on each lateral face and 3 on each side face
(6 across each face pair), each with its two randomized dimensions in
[0.5, 0.9]; plus exactly 4 neck spots at parametric positions
p in 0.2, 0.45, 0.7, 0.9 along the neck, at height bodyTopY +
p * neckLength, at radius interpolated along the neck's tapered radius
profile, rotated about Y by a per-spot angle, each with randomized
width and height in [0.4, 0.7]. -/
def c5AmendedSpots (sinPi cosPi : ℚ → ℚ) (rand : ℕ → ℚ) (m : Model)
    (n : ℚ) : Prop :=
  -- the twelve body spots are the z-face and x-face spot lists
  ((m.pattern.drop 4).take 12 = bodySpotsZ rand ++ bodySpotsX rand) ∧
  -- their positions form the fixed catalog
  ((bodySpotsZ rand ++ bodySpotsX rand).map primPosition
      = bodySpotCatalogZ ++ bodySpotCatalogX) ∧
  -- 3 catalog positions on each lateral face and on each side face
  (bodySpotCatalogZ.countP (fun v => decide (v.2.2 = (5/2 : ℚ))) = 3 ∧
   bodySpotCatalogZ.countP (fun v => decide (v.2.2 = (-(5/2) : ℚ))) = 3 ∧
   bodySpotCatalogX.countP (fun v => decide (v.1 = (3/2 : ℚ))) = 3 ∧
   bodySpotCatalogX.countP (fun v => decide (v.1 = (-(3/2) : ℚ))) = 3) ∧
  -- body-spot randomized dimensions lie in [0.5, 0.9]
  (∀ p ∈ bodySpotsZ rand,
     (1/2 ≤ (shapeDims p.shape).1 ∧ (shapeDims p.shape).1 ≤ 9/10) ∧
     (1/2 ≤ (shapeDims p.shape).2.1 ∧ (shapeDims p.shape).2.1 ≤ 9/10)) ∧
  (∀ p ∈ bodySpotsX rand,
     (1/2 ≤ (shapeDims p.shape).2.1 ∧ (shapeDims p.shape).2.1 ≤ 9/10) ∧
     (1/2 ≤ (shapeDims p.shape).2.2 ∧ (shapeDims p.shape).2.2 ≤ 9/10)) ∧
  -- the neck spots: exactly the four catalog entries
  (m.pattern.drop 16 = neckSpots sinPi cosPi rand n) ∧
  ((neckSpots sinPi cosPi rand n).length = 4) ∧
  -- rotation and placement: rotate about Y by the per-spot angle, then
  -- translate onto the neck surface at the interpolated radius and at
  -- height bodyTopY + p * neckLength
  ((neckSpots sinPi cosPi rand n).map (fun p => p.ops)
      = neckSpotParams.map (fun pa =>
          [XformOp.rotateY pa.2,
           XformOp.translate (neckRadiusAt pa.1 * sinPi pa.2) (3/2 + pa.1 * n)
             (3/2 + neckRadiusAt pa.1 * cosPi pa.2)])) ∧
  -- neck-spot randomized dimensions lie in [0.4, 0.7]
  (∀ p ∈ neckSpots sinPi cosPi rand n,
     (2/5 ≤ (shapeDims p.shape).1 ∧ (shapeDims p.shape).1 ≤ 7/10) ∧
     (2/5 ≤ (shapeDims p.shape).2.1 ∧ (shapeDims p.shape).2.1 ≤ 7/10))

/-- C5 amended, proved: the actual spot layout of createGiraffe, for
every parameter set and every random stream with draws in [0, 1). -/
theorem c5_amended_spots (sinPi cosPi : ℚ → ℚ) (rand : ℕ → ℚ)
    (n l horn h : ℚ) (hr : ∀ k, 0 ≤ rand k ∧ rand k < 1) :
    c5AmendedSpots sinPi cosPi rand (createGiraffe sinPi cosPi rand n l horn h) n := by
  refine ⟨rfl, rfl, ⟨?_, ?_, ?_, ?_⟩, ?_, ?_, rfl, rfl, rfl, ?_⟩
  · norm_num [bodySpotCatalogZ, List.countP_cons, List.countP_nil]
  · norm_num [bodySpotCatalogZ, List.countP_cons, List.countP_nil]
  · norm_num [bodySpotCatalogX, List.countP_cons, List.countP_nil]
  · norm_num [bodySpotCatalogX, List.countP_cons, List.countP_nil]
  · intro p hp
    simp only [bodySpotsZ] at hp
    fin_cases hp <;>
      simp only [zFaceSpot, shapeDims] <;>
      exact ⟨rand_dim_within _ _ _ _ (hr _).1 (hr _).2 (by norm_num) (by norm_num),
             rand_dim_within _ _ _ _ (hr _).1 (hr _).2 (by norm_num) (by norm_num)⟩
  · intro p hp
    simp only [bodySpotsX] at hp
    fin_cases hp <;>
      simp only [xFaceSpot, shapeDims] <;>
      exact ⟨rand_dim_within _ _ _ _ (hr _).1 (hr _).2 (by norm_num) (by norm_num),
             rand_dim_within _ _ _ _ (hr _).1 (hr _).2 (by norm_num) (by norm_num)⟩
  · intro p hp
    simp only [neckSpots, neckSpot] at hp
    fin_cases hp <;>
      simp only [shapeDims] <;>
      exact ⟨rand_dim_within _ _ _ _ (hr _).1 (hr _).2 (by norm_num) (by norm_num),
             rand_dim_within _ _ _ _ (hr _).1 (hr _).2 (by norm_num) (by norm_num)⟩

/-- Witness for the amended C5: a concrete random stream with all draws
equal to one half. -/
theorem c5_amended_spots_witness :
    (∀ k : ℕ, 0 ≤ ((fun _ => (1/2 : ℚ)) k) ∧ ((fun _ => (1/2 : ℚ)) k) < 1) ∧
    c5AmendedSpots (fun _ => 0) (fun _ => 0) (fun _ => (1/2 : ℚ))
      (createGiraffe (fun _ => 0) (fun _ => 0) (fun _ => (1/2 : ℚ)) 6 4 (4/5) 1) 6 :=
  ⟨fun _ => ⟨by norm_num, by norm_num⟩,
   c5_amended_spots (fun _ => 0) (fun _ => 0) (fun _ => (1/2 : ℚ)) 6 4 (4/5) 1
     (fun _ => ⟨by norm_num, by norm_num⟩)⟩

/-- C10: for a fixed parameter tuple the structural group, both eye
meshes, the root translation, the pattern-group transform sequences and
the pattern-group length are independent of the random stream: unseeded
randomness only enters the spot dimensions. -/
theorem c10_deterministic_except_spot_dims (sinPi cosPi : ℚ → ℚ)
    (r1 r2 : ℕ → ℚ) (n l horn h : ℚ) :
    (createGiraffe sinPi cosPi r1 n l horn h).structural
        = (createGiraffe sinPi cosPi r2 n l horn h).structural ∧
    (createGiraffe sinPi cosPi r1 n l horn h).eyes
        = (createGiraffe sinPi cosPi r2 n l horn h).eyes ∧
    (createGiraffe sinPi cosPi r1 n l horn h).rootY
        = (createGiraffe sinPi cosPi r2 n l horn h).rootY ∧
    (createGiraffe sinPi cosPi r1 n l horn h).pattern.map (fun p => p.ops)
        = (createGiraffe sinPi cosPi r2 n l horn h).pattern.map (fun p => p.ops) ∧
    (createGiraffe sinPi cosPi r1 n l horn h).pattern.length
        = (createGiraffe sinPi cosPi r2 n l horn h).pattern.length := by
  refine ⟨rfl, rfl, rfl, rfl, rfl⟩

/-! ## The procedural surface shader (createTexturedMaterial)

The GLSL injected by onBeforeCompile is embedded as rational-valued
functions; the GLSL sin builtin is abstracted as a function parameter. -/

/-- GLSL fract: the fractional part x - floor(x). -/
def glslFract (x : ℚ) : ℚ := x - Int.floor x

/-- The shader's pseudo-random hash:
fract(sin(dot(st, vec2(12.9898, 78.233))) * 43758.5453123). -/
def glslRandom (sin : ℚ → ℚ) (st : ℚ × ℚ) : ℚ :=
  glslFract (sin (st.1 * 12.9898 + st.2 * 78.233) * 43758.5453123)

/-- The shader's noise term: the hash sampled on the world position's xy
projection and on its yz projection, scaled by 20, each weighted 0.5. -/
def shaderNoise (sin : ℚ → ℚ) (wp : V3) : ℚ :=
  glslRandom sin (wp.1 * 20, wp.2.1 * 20) * 0.5
    + glslRandom sin (wp.2.1 * 20, wp.2.2 * 20) * 0.5

/-- The shader's brightness factor: 0.9 + noise * 0.15. -/
def textureFactor (sin : ℚ → ℚ) (wp : V3) : ℚ :=
  0.9 + shaderNoise sin wp * 0.15

/-- The shader's output: diffuseColor.rgb *= textureFactor. -/
def shaderOutputColor (sin : ℚ → ℚ) (base wp : V3) : V3 :=
  scaleV (textureFactor sin wp) base

/-- glslFract agrees with Int.fract on ℚ. -/
theorem glslFract_eq_fract (x : ℚ) : glslFract x = Int.fract x := rfl

/-- C6: the brightness factor is 0.9 + noise * 0.15 where noise averages
the pseudo-random hash over the xy and yz projections of the world
position; the noise always lies in [0, 1], hence the factor lies in
[0.9, 1.05], and the output colour is the base colour times the factor. -/
theorem c6_shader_brightness (sin : ℚ → ℚ) (wp base : V3) :
    textureFactor sin wp = 9/10 + shaderNoise sin wp * (15/100) ∧
    shaderNoise sin wp
      = glslRandom sin (wp.1 * 20, wp.2.1 * 20) * (1/2)
        + glslRandom sin (wp.2.1 * 20, wp.2.2 * 20) * (1/2) ∧
    0 ≤ shaderNoise sin wp ∧ shaderNoise sin wp ≤ 1 ∧
    9/10 ≤ textureFactor sin wp ∧ textureFactor sin wp ≤ 21/20 ∧
    shaderOutputColor sin base wp = scaleV (textureFactor sin wp) base := by
  have hb1 : 0 ≤ glslRandom sin (wp.1 * 20, wp.2.1 * 20) := by
    rw [glslRandom, glslFract_eq_fract]; exact Int.fract_nonneg _
  have hb2 : glslRandom sin (wp.1 * 20, wp.2.1 * 20) < 1 := by
    rw [glslRandom, glslFract_eq_fract]; exact Int.fract_lt_one _
  have hb3 : 0 ≤ glslRandom sin (wp.2.1 * 20, wp.2.2 * 20) := by
    rw [glslRandom, glslFract_eq_fract]; exact Int.fract_nonneg _
  have hb4 : glslRandom sin (wp.2.1 * 20, wp.2.2 * 20) < 1 := by
    rw [glslRandom, glslFract_eq_fract]; exact Int.fract_lt_one _
  have hnoise : shaderNoise sin wp
      = glslRandom sin (wp.1 * 20, wp.2.1 * 20) * (1/2)
        + glslRandom sin (wp.2.1 * 20, wp.2.2 * 20) * (1/2) := by
    rw [shaderNoise]; norm_num
  have hn0 : 0 ≤ shaderNoise sin wp := by rw [hnoise]; nlinarith
  have hn1 : shaderNoise sin wp ≤ 1 := by rw [hnoise]; nlinarith
  have hfac : textureFactor sin wp = 9/10 + shaderNoise sin wp * (15/100) := by
    rw [textureFactor]; norm_num
  refine ⟨hfac, hnoise, hn0, hn1, ?_, ?_, rfl⟩
  · rw [hfac]; nlinarith
  · rw [hfac]; nlinarith

/-! ## Model lifecycle (redrawGiraffe / removeGiraffe)

The component state is embedded as the scene's child list, the giraffe
field (the resource ids owned by the active model, if any), the list of
live GPU resources (geometries and materials not yet disposed), and a
fresh-id counter for allocations. -/

/-- A child of the root scene: the two lights added by initThreeJs, or a
model group carrying its GPU resource ids. -/
inductive SceneChild
  | ambientLight
  | directionalLight
  | model (resources : List ℕ)
  deriving DecidableEq, Repr

/-- The component state relevant to the model lifecycle. -/
structure AppState where
  sceneChildren : List SceneChild
  giraffe : Option (List ℕ)
  allocated : List ℕ
  nextId : ℕ
  deriving DecidableEq, Repr

/-- The GPU resources createGiraffe allocates for one model: the merged
structural geometry, the merged pattern geometry, the eye sphere
geometry, and the giraffe, spot and eye materials: six fresh ids. -/
def modelResources (nextId : ℕ) : List ℕ :=
  (List.range 6).map (fun i => nextId + i)

/-- Shallow embedding of removeGiraffe: if a giraffe is present, remove
it from the scene, dispose every geometry and material it owns, and
clear the field; otherwise do nothing. -/
def removeGiraffe (s : AppState) : AppState :=
  match s.giraffe with
  | none => s
  | some res =>
      { s with
        sceneChildren := s.sceneChildren.erase (SceneChild.model res),
        allocated := s.allocated.filter (fun x => !(res.contains x)),
        giraffe := none }

/-- Shallow embedding of redrawGiraffe: first removeGiraffe, then build a
new model (allocating fresh GPU resources) and add it to the scene. -/
def redrawGiraffe (s : AppState) : AppState :=
  let s1 := removeGiraffe s
  let res := modelResources s1.nextId
  { sceneChildren := s1.sceneChildren ++ [SceneChild.model res],
    giraffe := some res,
    allocated := s1.allocated ++ res,
    nextId := s1.nextId + 6 }

/-- Whether a scene child is a model group. -/
def isModelChild : SceneChild → Bool
  | SceneChild.model _ => true
  | _ => false

/-- The model children of the scene. -/
def modelChildren (s : AppState) : List SceneChild :=
  s.sceneChildren.filter isModelChild

/-- The lifecycle invariant: with no giraffe, no model resources are live
and the scene has no model child; with a giraffe, exactly its resources
are live and it is the scene's only model child. -/
def lifecycleInv (s : AppState) : Prop :=
  match s.giraffe with
  | none => s.allocated = [] ∧ modelChildren s = []
  | some res => s.allocated = res ∧ modelChildren s = [SceneChild.model res]

/-- Erasing the lone element satisfying a filter empties the filter. -/
theorem filter_erase_of_filter_singleton {α : Type} [DecidableEq α]
    (p : α → Bool) (a : α) :
    ∀ l : List α, l.filter p = [a] → (l.erase a).filter p = [] := by
  intro l
  induction l with
  | nil => intro h; simp at h
  | cons x xs ih =>
      intro h
      by_cases hx : p x
      · rw [List.filter_cons_of_pos hx] at h
        obtain ⟨rfl, htl⟩ := List.cons_eq_cons.mp h
        rw [List.erase_cons_head]
        exact htl
      · rw [List.filter_cons_of_neg hx] at h
        have hxa : x ≠ a := by
          intro he
          apply hx
          have : a ∈ List.filter p xs := by rw [h]; exact List.mem_singleton_self a
          rw [he]
          exact List.of_mem_filter this
        rw [List.erase_cons_tail]
        · rw [List.filter_cons_of_neg hx]
          exact ih h
        · simp [hxa]

/-- Filtering a list by non-membership in itself yields the empty list. -/
theorem filter_not_contains_self (l : List ℕ) :
    l.filter (fun x => !(l.contains x)) = [] := by
  rw [List.filter_eq_nil_iff]
  intro a ha
  simp [ha]

/-- What C2 requires of one regeneration step: the invariant is
preserved, the new scene has exactly one model child, and in the
intermediate state (after removeGiraffe, before creation) no giraffe
exists, no model resources are live, and the scene has no model child;
the resources live after the redraw are exactly the freshly created
model's. -/
def c2Post (s : AppState) : Prop :=
  lifecycleInv (redrawGiraffe s) ∧
  (modelChildren (redrawGiraffe s)).length = 1 ∧
  (removeGiraffe s).giraffe = none ∧
  (removeGiraffe s).allocated = [] ∧
  modelChildren (removeGiraffe s) = [] ∧
  (redrawGiraffe s).allocated = modelResources (removeGiraffe s).nextId

/-- C2: on every parameter change, the previously active model's
resources are all released (the intermediate state holds none) before
the replacement is created, and afterwards exactly one model is in the
scene, owning exactly the fresh resources. -/
theorem c2_lifecycle (s : AppState) (h : lifecycleInv s) : c2Post s := by
  rcases hg : s.giraffe with _ | res
  · have hrem : removeGiraffe s = s := by rw [removeGiraffe, hg]
    rw [lifecycleInv, hg] at h
    obtain ⟨hall, hmc⟩ := h
    refine ⟨?_, ?_, ?_, ?_, ?_, ?_⟩
    · rw [lifecycleInv]
      rw [redrawGiraffe]
      simp only [hrem]
      constructor
      · rw [hall]; rfl
      · rw [modelChildren] at hmc ⊢
        simp [List.filter_append, hmc, isModelChild]
    · rw [redrawGiraffe]
      simp only [hrem]
      rw [modelChildren] at hmc ⊢
      simp [List.filter_append, hmc, isModelChild]
    · rw [hrem, hg]
    · rw [hrem, hall]
    · rw [hrem]; exact hmc
    · rw [redrawGiraffe]
      simp only [hrem]
      rw [hall]
      rfl
  · rw [lifecycleInv, hg] at h
    obtain ⟨hall, hmc⟩ := h
    have hremAll : (removeGiraffe s).allocated = [] := by
      rw [removeGiraffe, hg]
      simp only
      rw [hall]
      exact filter_not_contains_self res
    have hremMc : modelChildren (removeGiraffe s) = [] := by
      rw [removeGiraffe, hg]
      rw [modelChildren] at hmc ⊢
      simp only
      exact filter_erase_of_filter_singleton isModelChild (SceneChild.model res)
        s.sceneChildren hmc
    refine ⟨?_, ?_, ?_, ?_, ?_, ?_⟩
    · rw [lifecycleInv]
      rw [redrawGiraffe]
      simp only
      constructor
      · rw [hremAll]; rfl
      · rw [modelChildren] at hremMc ⊢
        rw [removeGiraffe, hg] at hremMc ⊢
        simp only at hremMc ⊢
        simp [List.filter_append, hremMc, isModelChild]
    · rw [redrawGiraffe]
      rw [modelChildren] at hremMc ⊢
      simp [List.filter_append, hremMc, isModelChild]
    · rw [removeGiraffe, hg]
    · exact hremAll
    · exact hremMc
    · rw [redrawGiraffe]
      simp only
      rw [hremAll]
      rfl

/-- Witness for C2: the freshly initialized scene (two lights, no
giraffe, nothing allocated). -/
theorem c2_lifecycle_witness :
    lifecycleInv { sceneChildren := [SceneChild.ambientLight, SceneChild.directionalLight],
                   giraffe := none, allocated := [], nextId := 0 } ∧
    c2Post { sceneChildren := [SceneChild.ambientLight, SceneChild.directionalLight],
             giraffe := none, allocated := [], nextId := 0 } :=
  ⟨by simp [lifecycleInv, modelChildren, isModelChild],
   c2_lifecycle _ (by simp [lifecycleInv, modelChildren, isModelChild])⟩

/-! ## Export (downloadModel) -/

/-- The outcome of a download request: the aborted no-model case (with
the logged error message), a saved binary file, or the textual fallback
file. -/
inductive DownloadResult
  | noModel (loggedMessage : String)
  | binaryFile (filename contentType : String) (bytes : List ℕ)
  | textFile (filename contentType : String) (text : String)
  deriving DecidableEq, Repr

/-- The mesh groups of a model, as the source builds meshes: one merged
mesh per non-empty primitive group. -/
def meshGroups (m : Model) : List (List Primitive) :=
  (if m.structural.isEmpty then [] else [m.structural])
    ++ (if m.pattern.isEmpty then [] else [m.pattern])

/-- A one-byte tag per primitive shape in the serialized payload. -/
def shapeTag : Shape → ℕ
  | Shape.box _ _ _ => 0
  | Shape.cylinder _ _ _ => 1
  | Shape.sphere _ _ _ => 2

/-- Modelled from the spec: the binary GLB serialization performed by
GLTFExporter (a three.js addon, not part of src/) encodes the merged
meshes into a binary buffer; it is embedded as the four-byte glTF magic
header followed by at least one byte per primitive of every mesh
group. -/
def gltfSerializeBinary (m : Model) : List ℕ :=
  [103, 108, 84, 70] ++ (meshGroups m).flatMap (fun g => g.map (fun p => shapeTag p.shape))

/-- Shallow embedding of downloadModel: with no giraffe, log the error
and abort; otherwise serialize to binary and save it as a .glb file. -/
def downloadModel (giraffe : Option Model) : DownloadResult :=
  match giraffe with
  | none => DownloadResult.noModel "No giraffe model to download."
  | some m =>
      DownloadResult.binaryFile "my-plush-giraffe.glb" "application/octet-stream"
        (gltfSerializeBinary m)

/-- Whether a download outcome produced a file. -/
def fileProduced : DownloadResult → Bool
  | DownloadResult.noModel _ => false
  | DownloadResult.binaryFile _ _ _ => true
  | DownloadResult.textFile _ _ _ => true

/-- C7: export with no active model logs the no-model error and produces
no file; export of a model with at least one mesh group produces a
non-empty binary .glb buffer. -/
theorem c7_export (m : Model) (hm : meshGroups m ≠ []) :
    downloadModel none = DownloadResult.noModel "No giraffe model to download." ∧
    fileProduced (downloadModel none) = false ∧
    downloadModel (some m)
      = DownloadResult.binaryFile "my-plush-giraffe.glb" "application/octet-stream"
          (gltfSerializeBinary m) ∧
    gltfSerializeBinary m ≠ [] ∧
    fileProduced (downloadModel (some m)) = true := by
  refine ⟨rfl, rfl, rfl, ?_, rfl⟩
  rw [gltfSerializeBinary]
  simp

/-- Witness for C7: the default-parameter giraffe has both mesh groups
and exports to a non-empty buffer. -/
theorem c7_export_witness :
    meshGroups (createGiraffe (fun _ => 0) (fun _ => 0) (fun _ => 0) 6 4 (4/5) 1) ≠ [] ∧
    gltfSerializeBinary
        (createGiraffe (fun _ => 0) (fun _ => 0) (fun _ => 0) 6 4 (4/5) 1) ≠ [] :=
  ⟨by simp [meshGroups, createGiraffe, bodySpotsZ, bodySpotsX, neckSpots],
   (c7_export (createGiraffe (fun _ => 0) (fun _ => 0) (fun _ => 0) 6 4 (4/5) 1)
     (by simp [meshGroups, createGiraffe, bodySpotsZ, bodySpotsX, neckSpots])).2.2.2.1⟩

/-! ## Parameter input handlers -/

/-- The four geometric signal values of the component. -/
structure GiraffeParams where
  neckLength : ℚ
  legLength : ℚ
  hornLength : ℚ
  headSize : ℚ
  deriving DecidableEq, Repr

/-- onNeckLengthChange: store the event's valueAsNumber, unchecked. -/
def onNeckLengthChange (v : ℚ) (s : GiraffeParams) : GiraffeParams :=
  { s with neckLength := v }

/-- onLegLengthChange: store the event's valueAsNumber, unchecked. -/
def onLegLengthChange (v : ℚ) (s : GiraffeParams) : GiraffeParams :=
  { s with legLength := v }

/-- onHornLengthChange: store the event's valueAsNumber, unchecked. -/
def onHornLengthChange (v : ℚ) (s : GiraffeParams) : GiraffeParams :=
  { s with hornLength := v }

/-- onHeadSizeChange: store the event's valueAsNumber, unchecked. -/
def onHeadSizeChange (v : ℚ) (s : GiraffeParams) : GiraffeParams :=
  { s with headSize := v }

/-- The initial signal values of the component. -/
def defaultParams : GiraffeParams :=
  { neckLength := 6, legLength := 4, hornLength := 4/5, headSize := 1 }

/-- The ParameterSet invariant: all lengths strictly positive. -/
def paramsValid (s : GiraffeParams) : Prop :=
  0 < s.neckLength ∧ 0 < s.legLength ∧ 0 < s.hornLength ∧ 0 < s.headSize

/-- The model the redraw effect builds from the current signal values. -/
def redrawModel (sinPi cosPi : ℚ → ℚ) (rand : ℕ → ℚ) (s : GiraffeParams) : Model :=
  createGiraffe sinPi cosPi rand s.neckLength s.legLength s.hornLength s.headSize

/-- C8 counterexample: the neck-length handler accepts -1 without any
validation — starting from the valid default parameters it stores -1,
the invariant is broken, and regeneration runs with the non-positive
value: the rebuilt model's neck cylinder has height -1. -/
theorem c8_counterexample :
    paramsValid defaultParams ∧
    (onNeckLengthChange (-1) defaultParams).neckLength = -1 ∧
    ¬ paramsValid (onNeckLengthChange (-1) defaultParams) ∧
    (shapeDims (primAt (redrawModel (fun _ => 0) (fun _ => 0) (fun _ => 0)
        (onNeckLengthChange (-1) defaultParams)).structural 6).shape).2.2 = -1 := by
  refine ⟨⟨by norm_num [defaultParams], by norm_num [defaultParams],
           by norm_num [defaultParams], by norm_num [defaultParams]⟩, rfl, ?_, rfl⟩
  intro h
  have h1 := h.1
  norm_num [onNeckLengthChange, defaultParams] at h1

/-- C8 amended: the input handlers store the raw event value with no
validation; each leaves the other three parameters unchanged, and given
that the previous parameters were valid, the invariant holds after a
handler runs exactly when the supplied value is positive. -/
theorem c8_amended_handlers (s : GiraffeParams) (v : ℚ) :
    ((onNeckLengthChange v s).neckLength = v ∧
     (onNeckLengthChange v s).legLength = s.legLength ∧
     (onNeckLengthChange v s).hornLength = s.hornLength ∧
     (onNeckLengthChange v s).headSize = s.headSize ∧
     (paramsValid s → (paramsValid (onNeckLengthChange v s) ↔ 0 < v))) ∧
    ((onLegLengthChange v s).legLength = v ∧
     (onLegLengthChange v s).neckLength = s.neckLength ∧
     (onLegLengthChange v s).hornLength = s.hornLength ∧
     (onLegLengthChange v s).headSize = s.headSize ∧
     (paramsValid s → (paramsValid (onLegLengthChange v s) ↔ 0 < v))) ∧
    ((onHornLengthChange v s).hornLength = v ∧
     (onHornLengthChange v s).neckLength = s.neckLength ∧
     (onHornLengthChange v s).legLength = s.legLength ∧
     (onHornLengthChange v s).headSize = s.headSize ∧
     (paramsValid s → (paramsValid (onHornLengthChange v s) ↔ 0 < v))) ∧
    ((onHeadSizeChange v s).headSize = v ∧
     (onHeadSizeChange v s).neckLength = s.neckLength ∧
     (onHeadSizeChange v s).legLength = s.legLength ∧
     (onHeadSizeChange v s).hornLength = s.hornLength ∧
     (paramsValid s → (paramsValid (onHeadSizeChange v s) ↔ 0 < v))) := by
  refine ⟨⟨rfl, rfl, rfl, rfl, ?_⟩, ⟨rfl, rfl, rfl, rfl, ?_⟩,
          ⟨rfl, rfl, rfl, rfl, ?_⟩, ⟨rfl, rfl, rfl, rfl, ?_⟩⟩ <;>
    (intro h;
     simp only [paramsValid, onNeckLengthChange, onLegLengthChange,
       onHornLengthChange, onHeadSizeChange] at h ⊢) <;>
    tauto

/-- Witness for the amended C8: updating the default parameters with the
value 5 through the neck-length handler. -/
theorem c8_amended_handlers_witness :
    (onNeckLengthChange 5 defaultParams).neckLength = 5 ∧
    (paramsValid (onNeckLengthChange 5 defaultParams) ↔ (0 : ℚ) < 5) :=
  ⟨(c8_amended_handlers defaultParams 5).1.1,
   (c8_amended_handlers defaultParams 5).1.2.2.2.2
     (by norm_num [paramsValid, defaultParams])⟩

/-! ## Resize handling (onResize) -/

/-- The camera state the resize handler touches. -/
structure CameraState where
  aspect : ℚ
  deriving DecidableEq, Repr

/-- The renderer surface size. -/
structure RendererState where
  width : ℕ
  height : ℕ
  deriving DecidableEq, Repr

/-- The view state: camera and renderer. -/
structure ViewState where
  camera : CameraState
  renderer : RendererState
  deriving DecidableEq, Repr

/-- Shallow embedding of onResize: bail out when the container, camera
or renderer references are missing; bail out when the container width or
height is zero; otherwise set the camera aspect to width / height,
update the projection and resize the renderer. -/
def onResize (refsPresent : Bool) (containerWidth containerHeight : ℕ)
    (v : ViewState) : ViewState :=
  if ¬ refsPresent then v
  else if containerWidth = 0 ∨ containerHeight = 0 then v
  else
    { camera := { aspect := (containerWidth : ℚ) / (containerHeight : ℚ) },
      renderer := { width := containerWidth, height := containerHeight } }

/-- C9: on a viewport change the handler recomputes the aspect ratio and
render surface size from the container dimensions; a zero-width or
zero-height viewport (or missing references) is a no-op that leaves the
camera and renderer untouched, and no error is raised (the handler is a
total function). -/
theorem c9_resize (w h : ℕ) (v : ViewState) :
    (w = 0 ∨ h = 0 → onResize true w h v = v) ∧
    onResize false w h v = v ∧
    (0 < w → 0 < h →
      (onResize true w h v).camera.aspect = (w : ℚ) / (h : ℚ) ∧
      (onResize true w h v).renderer = { width := w, height := h }) := by
  refine ⟨?_, ?_, ?_⟩
  · rintro (rfl | rfl) <;> simp [onResize]
  · simp [onResize]
  · intro hw hh
    constructor <;> simp [onResize, hw.ne', hh.ne']

/-- Witness for C9: a zero-width resize leaves an initial view state
unchanged; a 4 by 3 resize sets aspect 4/3 and surface 4 by 3. -/
theorem c9_resize_witness :
    onResize true 0 5 { camera := { aspect := 1 }, renderer := { width := 0, height := 0 } }
      = { camera := { aspect := 1 }, renderer := { width := 0, height := 0 } } ∧
    (onResize true 4 3 { camera := { aspect := 1 }, renderer := { width := 0, height := 0 } }).camera.aspect
      = ((4 : ℕ) : ℚ) / ((3 : ℕ) : ℚ) ∧
    (onResize true 4 3 { camera := { aspect := 1 }, renderer := { width := 0, height := 0 } }).renderer
      = { width := 4, height := 3 } :=
  ⟨(c9_resize 0 5 _).1 (Or.inl rfl),
   ((c9_resize 4 3 _).2.2 (by norm_num) (by norm_num)).1,
   ((c9_resize 4 3 _).2.2 (by norm_num) (by norm_num)).2⟩

end Plushie
